import Mathlib

/-!
Verification of the routing, upload-validation and dispatch core of the
Javari Video Analysis application (CR-AudioViz-AI/javari-video-analysis).

The file src/App.jsx concatenates three near-duplicate single-page-app
components.  They are embedded here as three namespaces:

* `Javari.V1` - lines 1-1190: the component with the task catalog keyed by
  `property_damage` .. `custom_query`, the `API_ROUTING` table, the full
  upload validation (MIME type and 100 MB size), `analyzeVideo`,
  `simulateAPICall` and `resetAnalysis`.
* `Javari.V2` - lines 1201-2061: the component whose task catalog is keyed
  by `damage_inspection` .. `custom_query`, whose upload handlers differ,
  and whose analyze button lacks the custom-query gating.
* `Javari.V3` - lines 2071-2603: the component with an array-shaped task
  list and a `handleFile` handler that accepts both video and image files.

React `useState` cells become fields of an explicit state record; each
event handler becomes a state-transition function.  Browser object-URL
handles (`URL.createObjectURL`) are modelled by a counter of allocated
handles together with a counter of revoked handles; the source never calls
`URL.revokeObjectURL`, so no embedded transition touches the revocation
counter.  The asynchronous provider call awaited inside `analyzeVideo` is
the injected interface named in the spec; `analyzeVideoWith` abstracts it
as a function argument and `analyzeVideo` instantiates it with the embedded
`simulateAPICall`.
-/

namespace Javari

/-- A browser File value as the handlers see it: file name, declared MIME
type string, and byte size. -/
structure JSFile where
  name : String
  type : String
  size : Nat
deriving Repr, DecidableEq

/-- JS `String.prototype.startsWith`, computed on the character list so that
it is kernel-reducible. -/
def jsStartsWith (s p : String) : Bool :=
  s.data.take p.data.length == p.data

/-- JS `String.prototype.trim` (whitespace model restricted to ASCII
whitespace, which is all the claims exercise). -/
def jsTrim (s : String) : String :=
  String.mk (((s.data.dropWhile Char.isWhitespace).reverse.dropWhile
    Char.isWhitespace).reverse)

/-- JS object-literal lookup `m[k]` on a literal object map: `some` for a
present key, `none` for the `undefined` result on an absent key. -/
def assocLookup {α : Type} (m : List (String × α)) (k : String) : Option α :=
  (m.find? (fun p => p.1 == k)).map (fun p => p.2)

namespace V1

/-- One entry of `API_CONFIG` (App.jsx lines 26-75).  The `icon`, `color`
and `gradient` fields are UI rendering constants and are elided. -/
structure APIInfo where
  name : String
  description : String
  capabilities : List String
  freeLimit : String
  maxVideoSize : String
  maxDuration : String
  bestFor : String
deriving Repr, DecidableEq

/-- The provider catalog `API_CONFIG` (App.jsx lines 26-75). -/
def API_CONFIG : List (String × APIInfo) := [
  ("gemini",
    { name := "Google Gemini 2.0",
      description := "Native video understanding with 1M token context",
      capabilities := ["Video Q&A", "Damage Analysis", "Content Summary", "Scene Description"],
      freeLimit := "1,500 requests/day",
      maxVideoSize := "100MB",
      maxDuration := "1 hour",
      bestFor := "General video understanding, property inspection, Q&A" }),
  ("twelveLabs",
    { name := "Twelve Labs",
      description := "Semantic video search and timestamp finding",
      capabilities := ["Semantic Search", "Timestamp Finding", "Video Indexing", "Highlight Detection"],
      freeLimit := "600 minutes lifetime",
      maxVideoSize := "2GB",
      maxDuration := "2 hours",
      bestFor := "Finding specific moments, semantic search, video indexing" }),
  ("googleVideoIntelligence",
    { name := "Google Cloud Video Intelligence",
      description := "Object detection and label analysis",
      capabilities := ["Object Detection", "Label Detection", "Scene Change", "Shot Detection"],
      freeLimit := "1,000 minutes/month",
      maxVideoSize := "100MB",
      maxDuration := "2 hours",
      bestFor := "Object tracking, label detection, scene analysis" }),
  ("roboflow",
    { name := "Roboflow",
      description := "Custom AI detection models",
      capabilities := ["Custom Detection", "Damage Detection", "Defect Analysis", "Object Segmentation"],
      freeLimit := "1,000 API calls/month",
      maxVideoSize := "100MB",
      maxDuration := "30 minutes",
      bestFor := "Custom damage detection, specialized models, defect analysis" })]

/-- One entry of `ANALYSIS_TASKS` (App.jsx lines 77-304).  The `icon` and
`color` fields and the long `prompts` template strings are display-only
constants never read by the dispatch logic and are elided. -/
structure Task where
  id : String
  name : String
  description : String
  primaryAPI : String
  fallbackAPI : String
  creditCost : Nat
deriving Repr, DecidableEq

/-- The task catalog `ANALYSIS_TASKS` (App.jsx lines 77-304), in source
order. -/
def ANALYSIS_TASKS : List (String × Task) := [
  ("property_damage",
    { id := "property_damage",
      name := "Property Damage Inspection",
      description := "Analyze roof, siding, or structural damage from drone/camera footage",
      primaryAPI := "gemini",
      fallbackAPI := "roboflow",
      creditCost := 5 }),
  ("vehicle_damage",
    { id := "vehicle_damage",
      name := "Vehicle Damage Assessment",
      description := "Detect dents, scratches, and damage on vehicles",
      primaryAPI := "roboflow",
      fallbackAPI := "gemini",
      creditCost := 4 }),
  ("content_search",
    { id := "content_search",
      name := "Content Search & Moments",
      description := "Find specific moments, objects, or actions within videos",
      primaryAPI := "gemini",
      fallbackAPI := "twelveLabs",
      creditCost := 3 }),
  ("object_tracking",
    { id := "object_tracking",
      name := "Object Detection & Tracking",
      description := "Track and identify objects, people, or vehicles across video",
      primaryAPI := "googleVideoIntelligence",
      fallbackAPI := "gemini",
      creditCost := 4 }),
  ("content_summary",
    { id := "content_summary",
      name := "Video Summary & Analysis",
      description := "Generate comprehensive summary with key moments and insights",
      primaryAPI := "gemini",
      fallbackAPI := "twelveLabs",
      creditCost := 2 }),
  ("custom_query",
    { id := "custom_query",
      name := "Custom Video Query",
      description := "Ask any question about your video content",
      primaryAPI := "gemini",
      fallbackAPI := "twelveLabs",
      creditCost := 3 })]

/-- One entry of the `API_ROUTING` table (App.jsx lines 307-314). -/
structure Routing where
  primary : String
  fallback : String
deriving Repr, DecidableEq

/-- The routing table `API_ROUTING` (App.jsx lines 307-314). -/
def API_ROUTING : List (String × Routing) := [
  ("property_damage", { primary := "gemini", fallback := "roboflow" }),
  ("vehicle_damage", { primary := "roboflow", fallback := "gemini" }),
  ("content_search", { primary := "gemini", fallback := "twelveLabs" }),
  ("object_tracking", { primary := "googleVideoIntelligence", fallback := "gemini" }),
  ("content_summary", { primary := "gemini", fallback := "twelveLabs" }),
  ("custom_query", { primary := "gemini", fallback := "twelveLabs" })]

/-- The task registry lookup: the source expression `ANALYSIS_TASKS[id]`
(App.jsx line 428), with the `undefined` result of an absent key rendered
as `none`. -/
def getTask (id : String) : Option Task :=
  assocLookup ANALYSIS_TASKS id

/-- The registry enumeration: `Object.entries(ANALYSIS_TASKS)` in catalog
order (App.jsx line 835). -/
def listTasks : List (String × Task) :=
  ANALYSIS_TASKS

/-- Provider resolution of `analyzeVideo` (App.jsx line 430):
`selectedAPI === "auto" ? routing.primary : selectedAPI`. -/
def resolveAPI (routing : Routing) (selectedAPI : String) : String :=
  if selectedAPI == "auto" then routing.primary else selectedAPI

/-- One entry of the simulated `damageItems` list (App.jsx lines 486-505). -/
structure DamageItem where
  id : Nat
  location : String
  type : String
  severity : String
  timestamp : String
  description : String
  recommendation : String
deriving Repr, DecidableEq

/-- The simulated `overallCondition` object (App.jsx lines 481-485); the
source literal `7.5` is kept as tenths. -/
structure OverallCondition where
  scoreTenths : Nat
  label : String
  description : String
deriving Repr, DecidableEq

/-- The simulated `recommendations` object (App.jsx lines 511-515). -/
structure Recommendations where
  immediate : List String
  shortTerm : List String
  longTerm : List String
deriving Repr, DecidableEq

/-- The task-shaped payloads produced by `simulateAPICall` (App.jsx lines
475-543), one constructor per branch of the source; the `confidence`
literals 0.87, 0.82 and 0.85 are kept as hundredths. -/
inductive Payload where
  | propertyDamage (summary : String) (overallCondition : OverallCondition)
      (damageItems : List DamageItem) (positiveObservations : List String)
      (recommendations : Recommendations) (confidenceHundredths : Nat)
  | customAnswer (summary : String) (answer : String)
      (confidenceHundredths : Nat) (relatedTimestamps : List String)
  | generic (summary : String) (keyFindings : List String)
      (timestamps : List (String × String)) (confidenceHundredths : Nat)
deriving Repr, DecidableEq

/-- The payload selection of `simulateAPICall` (App.jsx lines 459-544).
The timer-driven progress animation is dropped; the value computed after
the simulated delay is kept exactly.  `API_CONFIG[apiName]` is looked up
as in the source; its `.name` field is only dereferenced in the branches
that interpolate it, so only those branches return `none` (the JS
TypeError) for an unknown provider id. -/
def simulateAPICall (task : Task) (apiName : String) (file : JSFile)
    (query : String) : Option Payload :=
  let apiConfig := assocLookup API_CONFIG apiName
  if task.id == "property_damage" then
    apiConfig.map (fun c => Payload.propertyDamage
      ("Analysis complete using " ++ c.name ++ ". Video \"" ++ file.name ++
        "\" has been analyzed for property damage.")
      { scoreTenths := 75, label := "Good",
        description := "Property shows normal wear with some areas requiring attention." }
      [{ id := 1, location := "Northeast corner of roof",
         type := "Shingle damage", severity := "Moderate", timestamp := "0:12",
         description := "Several shingles show signs of lifting and wear",
         recommendation := "Professional inspection recommended within 30 days" },
       { id := 2, location := "Gutter - East side",
         type := "Debris accumulation", severity := "Minor", timestamp := "0:34",
         description := "Leaves and debris visible in gutter section",
         recommendation := "Schedule gutter cleaning" }]
      ["Flashing around chimney appears intact",
       "No visible water damage or staining",
       "Ridge cap shingles in good condition"]
      { immediate := ["Clear gutter debris"],
        shortTerm := ["Schedule professional roof inspection"],
        longTerm := ["Consider preventive shingle replacement in 2-3 years"] }
      87)
  else if task.id == "custom_query" then
    some (Payload.customAnswer
      ("Analysis of \"" ++ file.name ++ "\" for query: \"" ++ query ++ "\"")
      ("Based on the video analysis, here is what I found regarding your question \"" ++
        query ++
        "\": The video shows [detailed analysis would appear here based on actual API response]. Key observations include visual elements, timing, and contextual information relevant to your query.")
      82
      ["0:05", "0:23", "0:45"])
  else
    apiConfig.map (fun c => Payload.generic
      ("Analysis complete using " ++ c.name ++ ". Your video \"" ++ file.name ++
        "\" has been processed.")
      ["Video successfully analyzed",
       "Content identified and categorized",
       "Key moments detected"]
      [("0:00", "Video start"), ("0:15", "Key moment detected"), ("0:30", "Scene change")]
      85)

/-- The stored analysis result envelope, the object literal of
`setAnalysisResult` (App.jsx lines 439-447). -/
structure AnalysisResult where
  task : String
  api : String
  timestamp : String
  videoName : String
  videoDuration : Option Nat
  videoSize : Nat
  data : Payload
deriving Repr, DecidableEq

/-- The `useState` cells of the component (App.jsx lines 322-333), plus the
object-URL accounting: `urlsAllocated` counts `URL.createObjectURL` calls
(each returning the next fresh handle id) and `urlsRevoked` counts
`URL.revokeObjectURL` calls.  The source contains no revocation call, so no
transition below increments `urlsRevoked`.  The decoded duration is modelled
in whole seconds. -/
structure AppState where
  currentPage : String
  selectedTask : Option String
  videoFile : Option JSFile
  videoPreview : Option Nat
  videoDuration : Option Nat
  customQuery : String
  isAnalyzing : Bool
  analysisResult : Option AnalysisResult
  selectedAPI : String
  error : Option String
  analysisProgress : Nat
  urlsAllocated : Nat
  urlsRevoked : Nat
deriving Repr, DecidableEq

/-- The initial state of the component (App.jsx lines 322-333). -/
def initialState : AppState :=
  { currentPage := "home", selectedTask := none, videoFile := none,
    videoPreview := none, videoDuration := none, customQuery := "",
    isAnalyzing := false, analysisResult := none, selectedAPI := "auto",
    error := none, analysisProgress := 0, urlsAllocated := 0, urlsRevoked := 0 }

/-- Reasons the upload validation can reject a file (spec section 4.4). -/
inductive RejectReason where
  | wrongType
  | tooLarge
deriving Repr, DecidableEq

/-- Result of upload validation (spec section 4.4). -/
inductive UploadOutcome where
  | ok
  | rejected (reason : RejectReason)
deriving Repr, DecidableEq

/-- The validation steps of `handleVideoUpload` (App.jsx lines 342-351) in
the order the source performs them: the MIME-type check, then the
100 MB = 100 * 1024 * 1024 byte size check. -/
def validate (file : JSFile) : UploadOutcome :=
  if !(jsStartsWith file.type "video/") then
    UploadOutcome.rejected RejectReason.wrongType
  else if file.size > 100 * 1024 * 1024 then
    UploadOutcome.rejected RejectReason.tooLarge
  else
    UploadOutcome.ok

/-- The `handleVideoUpload` handler (App.jsx lines 339-357).  The argument
is `e.target.files?.[0]`. -/
def handleVideoUpload (file : Option JSFile) (s : AppState) : AppState :=
  match file with
  | none => s
  | some file =>
    if !(jsStartsWith file.type "video/") then
      { s with error := some "Please upload a valid video file (MP4, MOV, AVI, WebM)" }
    else if file.size > 100 * 1024 * 1024 then
      { s with error := some "File size exceeds 100MB limit. Please use a smaller video or compress it." }
    else
      { s with videoFile := some file,
               videoPreview := some s.urlsAllocated,
               urlsAllocated := s.urlsAllocated + 1,
               error := none,
               analysisResult := none }

/-- The `handleDrop` handler (App.jsx lines 360-376).  The argument is
`e.dataTransfer.files?.[0]`. -/
def handleDrop (file : Option JSFile) (s : AppState) : AppState :=
  match file with
  | some file =>
    if jsStartsWith file.type "video/" then
      if file.size > 100 * 1024 * 1024 then
        { s with error := some "File size exceeds 100MB limit" }
      else
        { s with videoFile := some file,
                 videoPreview := some s.urlsAllocated,
                 urlsAllocated := s.urlsAllocated + 1,
                 error := none,
                 analysisResult := none }
    else
      { s with error := some "Please drop a valid video file" }
  | none => { s with error := some "Please drop a valid video file" }

/-- The `resetAnalysis` handler (App.jsx lines 567-576).  It clears every
session cell but performs no `URL.revokeObjectURL` call, so the revocation
counter is unchanged. -/
def resetAnalysis (s : AppState) : AppState :=
  { s with videoFile := none, videoPreview := none, videoDuration := none,
           selectedTask := none, customQuery := "", analysisResult := none,
           error := none, selectedAPI := "auto" }

/-- The JS fallback `err.message || "Analysis failed. Please try again."`
of the catch block (App.jsx line 451): an empty message string is falsy. -/
def errMessageOr (msg : String) : String :=
  if msg == "" then "Analysis failed. Please try again." else msg

/-- The `analyzeVideo` dispatch (App.jsx lines 419-456), with the awaited
provider call abstracted as the function argument `call` (the injected
`callProvider` interface of spec section 6).  Returns the updated state
together with the list of provider ids that were dispatched to, in order.
When the guard on line 420 fires, nothing happens; when the selected task
id is outside the catalog, the member access on the `undefined` lookup
result throws a TypeError which the catch block (lines 449-455) turns into
an error banner. -/
def analyzeVideoWith (call : String → Except String Payload) (now : String)
    (s : AppState) : AppState × List String :=
  match s.videoFile, s.selectedTask with
  | some videoFile, some selectedTask =>
    let s1 := { s with isAnalyzing := true, error := none,
                       analysisResult := none, analysisProgress := 10 }
    match assocLookup ANALYSIS_TASKS selectedTask,
          assocLookup API_ROUTING selectedTask with
    | some _task, some routing =>
      let apiToUse := resolveAPI routing s.selectedAPI
      match call apiToUse with
      | Except.ok result =>
        ({ s1 with
             analysisResult := some
               { task := selectedTask, api := apiToUse, timestamp := now,
                 videoName := videoFile.name, videoDuration := s.videoDuration,
                 videoSize := videoFile.size, data := result },
             isAnalyzing := false, analysisProgress := 0 },
         [apiToUse])
      | Except.error e =>
        ({ s1 with error := some (errMessageOr e),
                   isAnalyzing := false, analysisProgress := 0 },
         [apiToUse])
    | _, _ =>
      ({ s1 with error := some (errMessageOr "TypeError"),
                 isAnalyzing := false, analysisProgress := 0 },
       [])
  | _, _ => (s, [])

/-- The `analyzeVideo` dispatch with the awaited `simulateAPICall` plugged
in (App.jsx line 436); a `none` from the simulation is the TypeError of a
member access on an `undefined` provider config. -/
def analyzeVideo (now : String) (s : AppState) : AppState × List String :=
  analyzeVideoWith
    (fun apiName =>
      match s.videoFile, s.selectedTask with
      | some file, some tid =>
        match assocLookup ANALYSIS_TASKS tid with
        | some task =>
          match simulateAPICall task apiName file s.customQuery with
          | some payload => Except.ok payload
          | none => Except.error "TypeError"
        | none => Except.error "TypeError"
      | _, _ => Except.error "TypeError")
    now s

/-- The disabled predicate of the analyze button (App.jsx line 929). -/
def analyzeDisabled (s : AppState) : Bool :=
  s.videoFile.isNone || s.selectedTask.isNone || s.isAnalyzing ||
    (s.selectedTask == some "custom_query" && jsTrim s.customQuery == "")

end V1

namespace V2

/-- One entry of the second variant `ANALYSIS_TASKS` catalog (App.jsx lines
1237-1322): this catalog has no `id` and no `creditCost` field; `icon` and
the `prompts` template strings are elided as display-only constants. -/
structure Task where
  name : String
  description : String
  primaryAPI : String
  fallbackAPI : String
deriving Repr, DecidableEq

/-- The second variant task catalog (App.jsx lines 1237-1322). -/
def ANALYSIS_TASKS : List (String × Task) := [
  ("damage_inspection",
    { name := "Property Damage Inspection",
      description := "Analyze roof, siding, or structural damage from drone/camera footage",
      primaryAPI := "gemini", fallbackAPI := "roboflow" }),
  ("vehicle_damage",
    { name := "Vehicle Damage Assessment",
      description := "Detect dents, scratches, and collision damage on vehicles",
      primaryAPI := "roboflow", fallbackAPI := "gemini" }),
  ("semantic_search",
    { name := "Semantic Video Search",
      description := "Find specific moments, objects, or actions within video",
      primaryAPI := "twelveLabs", fallbackAPI := "gemini" }),
  ("object_tracking",
    { name := "Object Detection & Tracking",
      description := "Identify and track objects, people, or items throughout video",
      primaryAPI := "googleVideoIntelligence", fallbackAPI := "gemini" }),
  ("content_summary",
    { name := "Video Summary & Analysis",
      description := "Generate comprehensive summary with key moments and insights",
      primaryAPI := "gemini", fallbackAPI := "twelveLabs" }),
  ("custom_query",
    { name := "Custom Video Query",
      description := "Ask any question about your video content",
      primaryAPI := "gemini", fallbackAPI := "twelveLabs" })]

/-- The `useState` cells of the second variant that its analyze-button
predicate and upload handlers read (App.jsx lines 1326-1334).  The result
envelope of this variant is not modelled because no settled claim touches
its dispatch path. -/
structure AppState where
  selectedTask : Option String
  videoFile : Option JSFile
  videoPreview : Option Nat
  customQuery : String
  isAnalyzing : Bool
  selectedAPI : String
  error : Option String
  urlsAllocated : Nat
  urlsRevoked : Nat
deriving Repr, DecidableEq

/-- The initial state of the second variant (App.jsx lines 1326-1334). -/
def initialState : AppState :=
  { selectedTask := none, videoFile := none, videoPreview := none,
    customQuery := "", isAnalyzing := false, selectedAPI := "auto",
    error := none, urlsAllocated := 0, urlsRevoked := 0 }

/-- The `handleVideoUpload` handler of the second variant (App.jsx lines
1337-1349): it checks only the size, never the MIME type. -/
def handleVideoUpload (file : Option JSFile) (s : AppState) : AppState :=
  match file with
  | none => s
  | some file =>
    if file.size > 100 * 1024 * 1024 then
      { s with error := some "File size exceeds 100MB limit" }
    else
      { s with videoFile := some file,
               videoPreview := some s.urlsAllocated,
               urlsAllocated := s.urlsAllocated + 1,
               error := none }

/-- The disabled predicate of the second variant analyze button (App.jsx
line 1592): `!videoFile || !selectedTask || isAnalyzing` - no custom-query
condition appears. -/
def analyzeDisabled (s : AppState) : Bool :=
  s.videoFile.isNone || s.selectedTask.isNone || s.isAnalyzing

end V2

namespace V3

/-- Fixed-point rendering of `(bytes / (1024 * 1024)).toFixed(2) + " MB"`
(App.jsx line 2189), computed by exact rational rounding to hundredths;
IEEE double rounding can differ only in ties far below the precision any
claim exercises. -/
def formatMB (bytes : Nat) : String :=
  let hundredths := (bytes * 100 + 524288) / 1048576
  let fracPart := hundredths % 100
  toString (hundredths / 100) ++ "." ++
    (if fracPart < 10 then "0" else "") ++ toString fracPart ++ " MB"

/-- The `uploadedFile` object literal built by `handleFile` (App.jsx lines
2186-2192). -/
structure UploadedFile where
  file : JSFile
  name : String
  size : String
  type : String
  preview : Nat
deriving Repr, DecidableEq

/-- The `useState` cells of the third variant that its file handler reads
and writes (App.jsx lines 2158-2163), with the object-URL allocation
counter. -/
structure AppState where
  uploadedFile : Option UploadedFile
  isAnalyzing : Bool
  dragActive : Bool
  urlsAllocated : Nat
  urlsRevoked : Nat
deriving Repr, DecidableEq

/-- The initial state of the third variant (App.jsx lines 2158-2163). -/
def initialState : AppState :=
  { uploadedFile := none, isAnalyzing := false, dragActive := false,
    urlsAllocated := 0, urlsRevoked := 0 }

/-- The `handleFile` handler of the third variant (App.jsx lines
2184-2194): it accepts a file whose MIME type starts with `video/` or with
`image/`, storing it as the uploaded media; any other file is silently
ignored. -/
def handleFile (file : JSFile) (s : AppState) : AppState :=
  if jsStartsWith file.type "video/" || jsStartsWith file.type "image/" then
    let uf : UploadedFile :=
      { file := file, name := file.name, size := formatMB file.size,
        type := file.type, preview := s.urlsAllocated }
    { s with uploadedFile := some uf, urlsAllocated := s.urlsAllocated + 1 }
  else s

end V3

/-- The damageItems list carried by a payload, empty for the other payload
shapes. -/
def V1.damageItemsOf : V1.Payload → List V1.DamageItem
  | V1.Payload.propertyDamage _ _ items _ _ _ => items
  | _ => []

/-- Concrete fixture: a small well-formed video file. -/
def sampleVideo : JSFile :=
  { name := "roof_inspection.mp4", type := "video/mp4", size := 52428800 }

/-- Concrete fixture: a PNG image file. -/
def samplePng : JSFile :=
  { name := "photo.png", type := "image/png", size := 1000 }

end Javari

namespace Javari

/-! Theorems.  Claim theorems are named after the behavior they settle; each
doc comment names the claim. -/

/-- A key absent from the map looks up to `none` (the `undefined` value). -/
theorem assocLookup_eq_none {α : Type} (m : List (String × α)) (k : String)
    (h : k ∉ m.map Prod.fst) : assocLookup m k = none := by
  unfold assocLookup
  rw [List.find?_eq_none.mpr]
  · rfl
  · intro p hp
    simp only [beq_iff_eq]
    intro heq
    exact h (heq ▸ List.mem_map_of_mem Prod.fst hp)

/-- A successful lookup returns a pair of the map. -/
theorem assocLookup_mem {α : Type} (m : List (String × α)) (k : String)
    (v : α) (h : assocLookup m k = some v) : (k, v) ∈ m := by
  unfold assocLookup at h
  cases hf : m.find? (fun p => p.1 == k) with
  | none => rw [hf] at h; simp at h
  | some p =>
    rw [hf] at h
    have hmem := List.mem_of_find?_eq_some hf
    have hpred := List.find?_some hf
    simp only [beq_iff_eq] at hpred
    simp only [Option.map_some', Option.some.injEq] at h
    cases p with
    | mk a b =>
      simp only at hpred h
      subst hpred
      subst h
      exact hmem

/-- C1: for every task in the catalog, resolving the provider with override
"auto" goes through the API_ROUTING entry of the task and returns its
primary provider, which coincides with the primaryAPI of the task; and any
override other than "auto" is returned verbatim, for an arbitrary override
string, so no compatibility validation of the override happens. -/
theorem resolveProvider_auto_primary_override_verbatim :
    (∀ p ∈ V1.ANALYSIS_TASKS,
        (assocLookup V1.API_ROUTING p.1).map
          (fun r => V1.resolveAPI r "auto") = some p.2.primaryAPI) ∧
    (∀ (r : V1.Routing) (o : String), o ≠ "auto" → V1.resolveAPI r o = o) := by
  constructor
  · decide
  · intro r o h
    simp only [V1.resolveAPI, beq_iff_eq]
    exact if_neg h

/-- Witness for C1: the property_damage task resolves to gemini under
"auto", and the override "notARealProvider" is returned verbatim. -/
theorem resolveProvider_auto_primary_override_verbatim_witness :
    (assocLookup V1.API_ROUTING "property_damage").map
      (fun r => V1.resolveAPI r "auto") = some "gemini" ∧
    V1.resolveAPI { primary := "gemini", fallback := "roboflow" }
      "notARealProvider" = "notARealProvider" := by
  constructor
  · exact resolveProvider_auto_primary_override_verbatim.1
      ("property_damage",
        { id := "property_damage",
          name := "Property Damage Inspection",
          description := "Analyze roof, siding, or structural damage from drone/camera footage",
          primaryAPI := "gemini", fallbackAPI := "roboflow", creditCost := 5 })
      (by decide)
  · exact resolveProvider_auto_primary_override_verbatim.2 _ _ (by decide)

/-- C3: for a video-typed file, the upload validation rejects with TooLarge
exactly when the byte size strictly exceeds 100 * 1024 * 1024, and a file of
exactly the limit passes validation. -/
theorem validate_tooLarge_boundary (f : JSFile)
    (hvideo : jsStartsWith f.type "video/" = true) :
    (V1.validate f = V1.UploadOutcome.rejected V1.RejectReason.tooLarge ↔
      100 * 1024 * 1024 < f.size) ∧
    (f.size = 100 * 1024 * 1024 → V1.validate f = V1.UploadOutcome.ok) := by
  unfold V1.validate
  rw [hvideo]
  constructor
  · by_cases hs : f.size > 100 * 1024 * 1024
    · simp [hs]
    · simp [hs]
  · intro hsz
    rw [hsz]
    simp

/-- Witness for C3: a video file of limit + 1 bytes is rejected TooLarge and
a video file of exactly the limit is accepted. -/
theorem validate_tooLarge_boundary_witness :
    V1.validate { name := "big.mp4", type := "video/mp4", size := 104857601 } =
      V1.UploadOutcome.rejected V1.RejectReason.tooLarge ∧
    V1.validate { name := "fits.mp4", type := "video/mp4", size := 104857600 } =
      V1.UploadOutcome.ok := by
  constructor
  · exact (validate_tooLarge_boundary
      { name := "big.mp4", type := "video/mp4", size := 104857601 }
      (by decide)).1.mpr (by decide)
  · exact (validate_tooLarge_boundary
      { name := "fits.mp4", type := "video/mp4", size := 104857600 }
      (by decide)).2 rfl

/-- C7: evaluation of the code at the failing input.  Uploading a video
allocates preview handle 0; resetAnalysis then clears the preview reference,
the task selection, the query and the result, but performs no release - the
revocation count stays 0 where the claim requires exactly 1.  A second
upload before any reset allocates a second handle, again with no release of
the first. -/
theorem resetAnalysis_releases_no_handle :
    (V1.handleVideoUpload (some sampleVideo) V1.initialState).videoPreview = some 0 ∧
    (V1.handleVideoUpload (some sampleVideo) V1.initialState).urlsAllocated = 1 ∧
    (V1.handleVideoUpload (some sampleVideo) V1.initialState).urlsRevoked = 0 ∧
    (V1.resetAnalysis (V1.handleVideoUpload (some sampleVideo) V1.initialState)).urlsRevoked = 0 ∧
    (V1.resetAnalysis (V1.handleVideoUpload (some sampleVideo) V1.initialState)).videoPreview = none ∧
    (V1.resetAnalysis (V1.handleVideoUpload (some sampleVideo) V1.initialState)).selectedTask = none ∧
    (V1.resetAnalysis (V1.handleVideoUpload (some sampleVideo) V1.initialState)).customQuery = "" ∧
    (V1.resetAnalysis (V1.handleVideoUpload (some sampleVideo) V1.initialState)).analysisResult = none ∧
    (V1.handleVideoUpload (some sampleVideo)
      (V1.handleVideoUpload (some sampleVideo) V1.initialState)).urlsAllocated = 2 ∧
    (V1.handleVideoUpload (some sampleVideo)
      (V1.handleVideoUpload (some sampleVideo) V1.initialState)).urlsRevoked = 0 := by
  decide

/-- C9 counterexample: the source lookup `ANALYSIS_TASKS[id]` (App.jsx line
428) evaluates to the undefined value (none) for an identifier outside the
catalog; there is no NotFound error channel in the code, contradicting the
claim that the lookup fails with NotFound rather than yielding undefined. -/
theorem getTask_unknown_yields_undefined :
    V1.getTask "unknown_task" = none ∧
    "unknown_task" ∉ V1.ANALYSIS_TASKS.map Prod.fst := by
  decide

/-- C9 amended: for every identifier in the catalog the lookup returns the
corresponding Task, and for every identifier outside the catalog it yields
the undefined value (none); no NotFound error is produced. -/
theorem getTask_catalog_lookup (id : String) :
    (∀ p ∈ V1.ANALYSIS_TASKS, V1.getTask p.1 = some p.2) ∧
    (id ∉ V1.ANALYSIS_TASKS.map Prod.fst → V1.getTask id = none) := by
  constructor
  · decide
  · intro h
    exact assocLookup_eq_none _ _ h

/-- Witness for the amended C9: content_search is found, no_such_task is
undefined. -/
theorem getTask_catalog_lookup_witness :
    V1.getTask "content_search" = some
      { id := "content_search",
        name := "Content Search & Moments",
        description := "Find specific moments, objects, or actions within videos",
        primaryAPI := "gemini", fallbackAPI := "twelveLabs", creditCost := 3 } ∧
    V1.getTask "no_such_task" = none := by
  constructor
  · exact (getTask_catalog_lookup "no_such_task").1
      ("content_search",
        { id := "content_search",
          name := "Content Search & Moments",
          description := "Find specific moments, objects, or actions within videos",
          primaryAPI := "gemini", fallbackAPI := "twelveLabs", creditCost := 3 })
      (by decide)
  · exact (getTask_catalog_lookup "no_such_task").2 (by decide)

/-- C10: a rejected upload (wrong MIME type or oversize) changes nothing in
the session apart from the error banner: both handleVideoUpload and
handleDrop leave the stored media, the preview handle, the decoded
duration, the task selection, the query text, the prior result, the
override, the progress, the page and the handle counters exactly as they
were. -/
theorem upload_rejection_atomic (f : JSFile) (s : V1.AppState)
    (h : V1.validate f ≠ V1.UploadOutcome.ok) :
    ((V1.handleVideoUpload (some f) s).videoFile = s.videoFile ∧
     (V1.handleVideoUpload (some f) s).videoPreview = s.videoPreview ∧
     (V1.handleVideoUpload (some f) s).videoDuration = s.videoDuration ∧
     (V1.handleVideoUpload (some f) s).selectedTask = s.selectedTask ∧
     (V1.handleVideoUpload (some f) s).customQuery = s.customQuery ∧
     (V1.handleVideoUpload (some f) s).isAnalyzing = s.isAnalyzing ∧
     (V1.handleVideoUpload (some f) s).analysisResult = s.analysisResult ∧
     (V1.handleVideoUpload (some f) s).selectedAPI = s.selectedAPI ∧
     (V1.handleVideoUpload (some f) s).currentPage = s.currentPage ∧
     (V1.handleVideoUpload (some f) s).analysisProgress = s.analysisProgress ∧
     (V1.handleVideoUpload (some f) s).urlsAllocated = s.urlsAllocated ∧
     (V1.handleVideoUpload (some f) s).urlsRevoked = s.urlsRevoked) ∧
    ((V1.handleDrop (some f) s).videoFile = s.videoFile ∧
     (V1.handleDrop (some f) s).videoPreview = s.videoPreview ∧
     (V1.handleDrop (some f) s).videoDuration = s.videoDuration ∧
     (V1.handleDrop (some f) s).selectedTask = s.selectedTask ∧
     (V1.handleDrop (some f) s).customQuery = s.customQuery ∧
     (V1.handleDrop (some f) s).isAnalyzing = s.isAnalyzing ∧
     (V1.handleDrop (some f) s).analysisResult = s.analysisResult ∧
     (V1.handleDrop (some f) s).selectedAPI = s.selectedAPI ∧
     (V1.handleDrop (some f) s).currentPage = s.currentPage ∧
     (V1.handleDrop (some f) s).analysisProgress = s.analysisProgress ∧
     (V1.handleDrop (some f) s).urlsAllocated = s.urlsAllocated ∧
     (V1.handleDrop (some f) s).urlsRevoked = s.urlsRevoked) := by
  unfold V1.validate at h
  unfold V1.handleVideoUpload V1.handleDrop
  by_cases hv : jsStartsWith f.type "video/"
  · by_cases hs : f.size > 100 * 1024 * 1024
    · simp [hv, hs]
    · simp [hv, hs] at h
  · simp [hv]

/-- Witness for C10: an oversize video upload into a session that already
holds a prior upload leaves everything but the error banner unchanged. -/
theorem upload_rejection_atomic_witness :
    ((V1.handleVideoUpload
        (some { name := "big.mp4", type := "video/mp4", size := 104857601 })
        (V1.handleVideoUpload (some sampleVideo) V1.initialState)).videoFile =
      (V1.handleVideoUpload (some sampleVideo) V1.initialState).videoFile ∧
     (V1.handleVideoUpload
        (some { name := "big.mp4", type := "video/mp4", size := 104857601 })
        (V1.handleVideoUpload (some sampleVideo) V1.initialState)).videoPreview =
      (V1.handleVideoUpload (some sampleVideo) V1.initialState).videoPreview) := by
  have h := upload_rejection_atomic
    { name := "big.mp4", type := "video/mp4", size := 104857601 }
    (V1.handleVideoUpload (some sampleVideo) V1.initialState)
    (by decide)
  exact ⟨h.1.1, h.1.2.1⟩

/-- C4 counterexample: the third variant handler handleFile (App.jsx lines
2184-2194) accepts a file whose declared MIME type is image/png and stores
it as the uploaded media, contradicting the claim that every file whose
MIME type does not start with "video/" is rejected WrongType and never
stored. -/
theorem handleFile_stores_image_png :
    ((V3.handleFile samplePng V3.initialState).uploadedFile).isSome = true := by
  decide

/-- C4 amended: in the first variant every file whose MIME type does not
start with "video/" is rejected WrongType and not stored; the third
variant handler additionally accepts image/* files, storing an image/png
file as the uploaded media, and silently ignores only files that are
neither video/* nor image/*. -/
theorem wrongType_rejection_per_variant (f : JSFile)
    (h : jsStartsWith f.type "video/" = false) :
    V1.validate f = V1.UploadOutcome.rejected V1.RejectReason.wrongType ∧
    (∀ s : V1.AppState, (V1.handleVideoUpload (some f) s).videoFile = s.videoFile) ∧
    (jsStartsWith f.type "image/" = true →
      ∀ s : V3.AppState, ((V3.handleFile f s).uploadedFile).isSome = true) ∧
    (jsStartsWith f.type "image/" = false →
      ∀ s : V3.AppState, V3.handleFile f s = s) := by
  refine ⟨?_, ?_, ?_, ?_⟩
  · unfold V1.validate
    simp [h]
  · intro s
    unfold V1.handleVideoUpload
    simp [h]
  · intro himg s
    unfold V3.handleFile
    simp [h, himg]
  · intro himg s
    unfold V3.handleFile
    simp [h, himg]

/-- Witness for the amended C4: an image/png file is rejected WrongType and
not stored by the first variant, and stored by the third variant. -/
theorem wrongType_rejection_per_variant_witness :
    V1.validate samplePng = V1.UploadOutcome.rejected V1.RejectReason.wrongType ∧
    (V1.handleVideoUpload (some samplePng) V1.initialState).videoFile = none ∧
    ((V3.handleFile samplePng V3.initialState).uploadedFile).isSome = true := by
  have h := wrongType_rejection_per_variant samplePng (by decide)
  exact ⟨h.1, h.2.1 V1.initialState, h.2.2.1 (by decide) V3.initialState⟩

/-- C5 counterexample: in the second variant, with the custom-query task
selected, an empty query text, a file uploaded and no analysis in flight,
the analyze button is NOT disabled - the disabled predicate on App.jsx line
1592 omits the custom-query condition, contradicting the claim that an
empty query always keeps the analyze action disabled. -/
theorem analyzeDisabled_variant2_empty_query_enabled :
    V2.analyzeDisabled
      { selectedTask := some "custom_query",
        videoFile := some { name := "clip.mp4", type := "video/mp4", size := 4096 },
        videoPreview := some 0, customQuery := "", isAnalyzing := false,
        selectedAPI := "auto", error := none,
        urlsAllocated := 1, urlsRevoked := 0 } = false := by
  decide

/-- C5 amended: the first variant analyze button is disabled whenever the
custom-query task is selected with an all-whitespace query, and enabled
when a file and a task are selected, nothing is in flight and the query
has a non-whitespace character; the second variant button ignores the
query entirely, so it is enabled under the same conditions even with an
empty query. -/
theorem analyzeDisabled_custom_query_gate (s : V1.AppState) (t : V2.AppState) :
    (s.selectedTask = some "custom_query" → jsTrim s.customQuery = "" →
      V1.analyzeDisabled s = true) ∧
    (s.videoFile.isSome = true → s.selectedTask.isSome = true →
      s.isAnalyzing = false → jsTrim s.customQuery ≠ "" →
      V1.analyzeDisabled s = false) ∧
    (t.videoFile.isSome = true → t.selectedTask.isSome = true →
      t.isAnalyzing = false → V2.analyzeDisabled t = false) := by
  refine ⟨?_, ?_, ?_⟩
  · intro h1 h2
    simp [V1.analyzeDisabled, h1, h2]
  · intro hf ht ha hq
    obtain ⟨v, hv⟩ := Option.isSome_iff_exists.mp hf
    obtain ⟨tid, htid⟩ := Option.isSome_iff_exists.mp ht
    have hq2 : (jsTrim s.customQuery == "") = false := by
      rw [beq_eq_false_iff_ne]
      exact hq
    simp [V1.analyzeDisabled, hv, htid, ha, hq2]
  · intro hf ht ha
    obtain ⟨v, hv⟩ := Option.isSome_iff_exists.mp hf
    obtain ⟨tid, htid⟩ := Option.isSome_iff_exists.mp ht
    simp [V2.analyzeDisabled, hv, htid, ha]

/-- Witness for the amended C5: with the custom-query task and an empty
query the first variant disables analyze; with a non-blank query it
enables it; the second variant enables it even with the empty query. -/
theorem analyzeDisabled_custom_query_gate_witness :
    V1.analyzeDisabled
      { V1.initialState with videoFile := some sampleVideo,
                             selectedTask := some "custom_query" } = true ∧
    V1.analyzeDisabled
      { V1.initialState with videoFile := some sampleVideo,
                             selectedTask := some "custom_query",
                             customQuery := "What color is the car" } = false ∧
    V2.analyzeDisabled
      { V2.initialState with videoFile := some sampleVideo,
                             selectedTask := some "custom_query" } = false := by
  refine ⟨?_, ?_, ?_⟩
  · exact (analyzeDisabled_custom_query_gate
      { V1.initialState with videoFile := some sampleVideo,
                             selectedTask := some "custom_query" }
      V2.initialState).1 rfl (by decide)
  · exact (analyzeDisabled_custom_query_gate
      { V1.initialState with videoFile := some sampleVideo,
                             selectedTask := some "custom_query",
                             customQuery := "What color is the car" }
      V2.initialState).2.1 rfl rfl rfl (by decide)
  · exact (analyzeDisabled_custom_query_gate V1.initialState
      { V2.initialState with videoFile := some sampleVideo,
                             selectedTask := some "custom_query" }).2.2 rfl rfl rfl

/-- An error message that is not the empty string survives the JS falsy
fallback of the catch block. -/
theorem errMessageOr_of_ne (msg : String) (h : msg ≠ "") :
    V1.errMessageOr msg = msg := by
  simp only [V1.errMessageOr, beq_iff_eq]
  exact if_neg h

/-- Every routing table entry has distinct primary and fallback
providers. -/
theorem API_ROUTING_primary_ne_fallback :
    ∀ q ∈ V1.API_ROUTING, q.2.primary ≠ q.2.fallback := by
  decide

/-- C6: when the awaited provider call rejects with a nonempty reason, the
dispatch surfaces exactly that reason as the error banner, stores no
AnalysisResult, performs exactly one provider call - the resolved one, so
no automatic retry happens - and under auto routing the fallback provider
of the task is not among the dispatched providers. -/
theorem analyzeVideo_failure_no_retry_no_fallback
    (call : String → Except String V1.Payload) (now : String) (s : V1.AppState)
    {f : JSFile} {tid : String} {task : V1.Task} {routing : V1.Routing}
    {reason : String}
    (hf : s.videoFile = some f) (ht : s.selectedTask = some tid)
    (htask : assocLookup V1.ANALYSIS_TASKS tid = some task)
    (hrouting : assocLookup V1.API_ROUTING tid = some routing)
    (hfail : call (V1.resolveAPI routing s.selectedAPI) = Except.error reason)
    (hne : reason ≠ "") :
    (V1.analyzeVideoWith call now s).1.error = some reason ∧
    (V1.analyzeVideoWith call now s).1.analysisResult = none ∧
    (V1.analyzeVideoWith call now s).2 = [V1.resolveAPI routing s.selectedAPI] ∧
    (s.selectedAPI = "auto" →
      routing.fallback ∉ (V1.analyzeVideoWith call now s).2) := by
  have hprim : routing.primary ≠ routing.fallback :=
    API_ROUTING_primary_ne_fallback (tid, routing) (assocLookup_mem _ _ _ hrouting)
  unfold V1.analyzeVideoWith
  rw [hf, ht]
  simp only [htask, hrouting, hfail, errMessageOr_of_ne reason hne]
  refine ⟨trivial, trivial, trivial, ?_⟩
  intro hauto
  rw [hauto]
  simp [V1.resolveAPI]
  intro hcontra
  exact hprim hcontra.symm

/-- Witness for C6: a failing gemini call on the property_damage task under
auto routing surfaces its reason, stores nothing, dispatches once to
gemini, and roboflow (the fallback) is never invoked. -/
theorem analyzeVideo_failure_no_retry_no_fallback_witness :
    (V1.analyzeVideoWith (fun _ => Except.error "Gemini quota exceeded")
      "2025-12-17T12:00:00.000Z"
      { V1.initialState with videoFile := some sampleVideo,
                             selectedTask := some "property_damage" }).1.error =
      some "Gemini quota exceeded" ∧
    (V1.analyzeVideoWith (fun _ => Except.error "Gemini quota exceeded")
      "2025-12-17T12:00:00.000Z"
      { V1.initialState with videoFile := some sampleVideo,
                             selectedTask := some "property_damage" }).1.analysisResult =
      none ∧
    (V1.analyzeVideoWith (fun _ => Except.error "Gemini quota exceeded")
      "2025-12-17T12:00:00.000Z"
      { V1.initialState with videoFile := some sampleVideo,
                             selectedTask := some "property_damage" }).2 = ["gemini"] ∧
    "roboflow" ∉ (V1.analyzeVideoWith (fun _ => Except.error "Gemini quota exceeded")
      "2025-12-17T12:00:00.000Z"
      { V1.initialState with videoFile := some sampleVideo,
                             selectedTask := some "property_damage" }).2 := by
  have h := analyzeVideo_failure_no_retry_no_fallback
    (fun _ => Except.error "Gemini quota exceeded")
    "2025-12-17T12:00:00.000Z"
    { V1.initialState with videoFile := some sampleVideo,
                           selectedTask := some "property_damage" }
    rfl rfl rfl rfl rfl (by decide)
  exact ⟨h.1, h.2.1, h.2.2.1, h.2.2.2 rfl⟩

/-- C8: when the awaited provider call succeeds, the stored AnalysisResult
is the raw payload stamped with the invariant envelope: the call-time
clock value, the provider id actually dispatched to, and the snapshot of
the media descriptor - file name, byte size and decoded duration. -/
theorem analyzeVideo_success_envelope
    (call : String → Except String V1.Payload) (now : String) (s : V1.AppState)
    {f : JSFile} {tid : String} {task : V1.Task} {routing : V1.Routing}
    {payload : V1.Payload}
    (hf : s.videoFile = some f) (ht : s.selectedTask = some tid)
    (htask : assocLookup V1.ANALYSIS_TASKS tid = some task)
    (hrouting : assocLookup V1.API_ROUTING tid = some routing)
    (hok : call (V1.resolveAPI routing s.selectedAPI) = Except.ok payload) :
    (V1.analyzeVideoWith call now s).1.analysisResult = some
      { task := tid, api := V1.resolveAPI routing s.selectedAPI,
        timestamp := now, videoName := f.name, videoDuration := s.videoDuration,
        videoSize := f.size, data := payload } ∧
    (V1.analyzeVideoWith call now s).2 = [V1.resolveAPI routing s.selectedAPI] := by
  unfold V1.analyzeVideoWith
  rw [hf, ht]
  simp only [htask, hrouting, hok]
  exact ⟨trivial, trivial⟩

/-- Witness for C8: a successful gemini call on the property_damage task
stamps the result with the timestamp, the provider gemini, and the name,
size and duration of the uploaded video. -/
theorem analyzeVideo_success_envelope_witness :
    (V1.analyzeVideoWith
      (fun _ => Except.ok (V1.Payload.customAnswer "s" "a" 82 []))
      "2025-12-17T12:00:00.000Z"
      { V1.initialState with videoFile := some sampleVideo,
                             selectedTask := some "property_damage",
                             videoDuration := some 93 }).1.analysisResult = some
      { task := "property_damage", api := "gemini",
        timestamp := "2025-12-17T12:00:00.000Z",
        videoName := "roof_inspection.mp4", videoDuration := some 93,
        videoSize := 52428800,
        data := V1.Payload.customAnswer "s" "a" 82 [] } := by
  have h := analyzeVideo_success_envelope
    (fun _ => Except.ok (V1.Payload.customAnswer "s" "a" 82 []))
    "2025-12-17T12:00:00.000Z"
    { V1.initialState with videoFile := some sampleVideo,
                           selectedTask := some "property_damage",
                           videoDuration := some 93 }
    rfl rfl rfl rfl rfl
  exact h.1

/-- C2: the catalog entry property_damage has primary gemini and fallback
roboflow; dispatching it under override "auto" performs exactly one
provider call, to gemini; the stored result names gemini as the provider;
and the simulated payload carries a damageItems list with at least one
entry, every entry having a severity among Minor, Moderate and Severe and
a nonempty recommendation string. -/
theorem property_damage_auto_dispatch_payload :
    (V1.getTask "property_damage").map V1.Task.primaryAPI = some "gemini" ∧
    (V1.getTask "property_damage").map V1.Task.fallbackAPI = some "roboflow" ∧
    (V1.analyzeVideo "2025-12-17T12:00:00.000Z"
      { V1.initialState with videoFile := some sampleVideo,
                             selectedTask := some "property_damage" }).2 =
      ["gemini"] ∧
    ((V1.analyzeVideo "2025-12-17T12:00:00.000Z"
      { V1.initialState with videoFile := some sampleVideo,
                             selectedTask := some "property_damage" }).1.analysisResult).map
      V1.AnalysisResult.api = some "gemini" ∧
    (let items := (((V1.analyzeVideo "2025-12-17T12:00:00.000Z"
        { V1.initialState with videoFile := some sampleVideo,
                               selectedTask := some "property_damage" }).1.analysisResult).map
        (fun a => V1.damageItemsOf a.data)).getD []
     1 ≤ items.length ∧
       ∀ d ∈ items, d.severity ∈ ["Minor", "Moderate", "Severe"] ∧
         d.recommendation ≠ "") := by
  decide

end Javari
